import Mathlib

/-!
Verification of the SSD1306 OLED display driver (`ssd1306.h` / `ssd1306.c`)
from the interactive-traffic-light repository.

The driver keeps a 1024-byte framebuffer (128 columns × 64 rows, organised
as 8 pages of 128 vertical-byte columns) and talks to the panel over I2C.
We embed the framebuffer as a function from byte index to byte value, and
the bus traffic as a list of I2C write transactions (device address plus
payload bytes).  All definitions are translated directly from the C source.
-/

namespace SSD1306

/-- Display width in pixels (`SSD1306_WIDTH`). -/
def WIDTH : Nat := 128

/-- Display height in pixels (`SSD1306_HEIGHT`). -/
def HEIGHT : Nat := 64

/-- I2C device address (`SSD1306_I2C_ADDR`). -/
def I2C_ADDR : Nat := 0x3C

/-- The framebuffer: byte index (0..1023) to byte value (0..255).
`static uint8_t buffer[SSD1306_WIDTH * SSD1306_HEIGHT / 8];` -/
def FB : Type := Nat → Nat

/-- A single blocking I2C write transaction: device address and payload. -/
structure I2CMsg where
  addr : Nat
  bytes : List Nat
  deriving DecidableEq, Repr

/-- `ssd1306_write_command`: sends `{0x00, cmd}` to the device. -/
def write_command (cmd : Nat) : I2CMsg :=
  { addr := I2C_ADDR, bytes := [0x00, cmd] }

/-- `ssd1306_write_data`: sends `0x40` followed by the `len` data bytes. -/
def write_data (data : List Nat) : I2CMsg :=
  { addr := I2C_ADDR, bytes := 0x40 :: data }

/-- Pointwise update of one framebuffer byte (array store). -/
def store (fb : FB) (i v : Nat) : FB :=
  fun j => if j = i then v else fb j

/-- `ssd1306_clear`: `memset(buffer, 0, sizeof(buffer))`. -/
def ssd1306_clear : FB := fun _ => 0

/-- `ssd1306_draw_pixel(x, y, color)`: bounds-checked single-pixel write.
Out-of-range coordinates return the buffer unchanged; otherwise bit
`y % 8` of byte `x + (y/8)*WIDTH` is set (`|=`) or cleared (`&= ~mask`). -/
def ssd1306_draw_pixel (fb : FB) (x y : Int) (color : Bool) : FB :=
  if x < 0 ∨ (WIDTH : Int) ≤ x ∨ y < 0 ∨ (HEIGHT : Int) ≤ y then fb
  else
    let xn := x.toNat
    let yn := y.toNat
    let idx := xn + (yn / 8) * WIDTH
    if color then
      store fb idx (fb idx ||| (1 <<< (yn % 8)))
    else
      store fb idx (fb idx &&& (255 ^^^ (1 <<< (yn % 8))))

/-- The bytes of framebuffer page `page`: `&buffer[SSD1306_WIDTH * page]`,
`SSD1306_WIDTH` bytes long. -/
def pageSlice (fb : FB) (page : Nat) : List Nat :=
  (List.range WIDTH).map (fun i => fb (WIDTH * page + i))

/-- The four bus transactions `ssd1306_update` issues for one page:
page-select command, low column address, high column address, page data. -/
def pageMsgs (fb : FB) (page : Nat) : List I2CMsg :=
  [write_command (0xB0 + page), write_command 0x00, write_command 0x10,
   write_data (pageSlice fb page)]

/-- The `for (page = 0; page < n; page++)` loop of `ssd1306_update`,
by recursion on the number of pages: transactions for pages `0..n-1`
in ascending order. -/
def updateLoop (fb : FB) : Nat → List I2CMsg
  | 0 => []
  | n + 1 => updateLoop fb n ++ pageMsgs fb n

/-- `ssd1306_update`: pushes all 8 framebuffer pages to the panel. -/
def ssd1306_update (fb : FB) : List I2CMsg :=
  updateLoop fb (HEIGHT / 8)

/-- `ssd1306_init`: the fixed command sequence issued after the 100 ms
settling delay, in source order. -/
def ssd1306_init : List I2CMsg :=
  [write_command 0xAE,  -- Display OFF
   write_command 0x20,  -- Set Memory Addressing Mode
   write_command 0x00,  -- Horizontal Addressing Mode
   write_command 0xB0,  -- Set Page Start Address
   write_command 0xC8,  -- COM Output Scan Direction remapped mode
   write_command 0x00,  -- Set low column address
   write_command 0x10,  -- Set high column address
   write_command 0x40,  -- Set start line address
   write_command 0x81,  -- Set contrast control
   write_command 0xFF,
   write_command 0xA1,  -- Set segment re-map 0 to 127
   write_command 0xA6,  -- Set normal display
   write_command 0xA8,  -- Set multiplex ratio
   write_command 0x3F,  -- 1/64 duty
   write_command 0xA4,  -- Output follows RAM content
   write_command 0xD3,  -- Set display offset
   write_command 0x00,  -- No offset
   write_command 0xD5,  -- Set display clock divide ratio
   write_command 0xF0,  -- Set divide ratio
   write_command 0xD9,  -- Set pre-charge period
   write_command 0x22,
   write_command 0xDA,  -- Set com pins hardware configuration
   write_command 0x12,
   write_command 0xDB,  -- Set vcomh
   write_command 0x20,
   write_command 0x8D,  -- Set DC-DC enable
   write_command 0x14,
   write_command 0xAF]  -- Turn on SSD1306 panel

/-- Reading back one pixel from the framebuffer, per the data model:
bit `y % 8` of byte `x + (y/8)*WIDTH`. -/
def readPixel (fb : FB) (x y : Nat) : Bool :=
  Nat.testBit (fb (x + (y / 8) * WIDTH)) (y % 8)

/-- The 5×7 font table `font5x7`, ASCII 32 (space) through 126 (~) plus two
arrow glyphs; each row is the 5 column bytes of one glyph. -/
def font5x7 : List (List Nat) := [
  [0x00,0x00,0x00,0x00,0x00], -- space
  [0x00,0x00,0x5F,0x00,0x00], -- !
  [0x00,0x07,0x00,0x07,0x00], -- "
  [0x14,0x7F,0x14,0x7F,0x14], -- #
  [0x24,0x2A,0x7F,0x2A,0x12], -- $
  [0x23,0x13,0x08,0x64,0x62], -- %
  [0x36,0x49,0x55,0x22,0x50], -- &
  [0x00,0x05,0x03,0x00,0x00], -- apostrophe
  [0x00,0x1C,0x22,0x41,0x00], -- (
  [0x00,0x41,0x22,0x1C,0x00], -- )
  [0x14,0x08,0x3E,0x08,0x14], -- *
  [0x08,0x08,0x3E,0x08,0x08], -- +
  [0x00,0x50,0x30,0x00,0x00], -- comma
  [0x08,0x08,0x08,0x08,0x08], -- hyphen
  [0x00,0x60,0x60,0x00,0x00], -- period
  [0x20,0x10,0x08,0x04,0x02], -- slash
  [0x3E,0x51,0x49,0x45,0x3E], -- 0
  [0x00,0x42,0x7F,0x40,0x00], -- 1
  [0x72,0x49,0x49,0x49,0x46], -- 2
  [0x21,0x41,0x49,0x4D,0x33], -- 3
  [0x18,0x14,0x12,0x7F,0x10], -- 4
  [0x27,0x45,0x45,0x45,0x39], -- 5
  [0x3C,0x4A,0x49,0x49,0x31], -- 6
  [0x41,0x21,0x11,0x09,0x07], -- 7
  [0x36,0x49,0x49,0x49,0x36], -- 8
  [0x46,0x49,0x49,0x29,0x1E], -- 9
  [0x00,0x36,0x36,0x00,0x00], -- colon
  [0x00,0x56,0x36,0x00,0x00], -- semicolon
  [0x08,0x14,0x22,0x41,0x00], -- <
  [0x14,0x14,0x14,0x14,0x14], -- =
  [0x00,0x41,0x22,0x14,0x08], -- >
  [0x02,0x01,0x59,0x09,0x06], -- ?
  [0x3E,0x41,0x5D,0x59,0x4E], -- @
  [0x7C,0x12,0x11,0x12,0x7C], -- A
  [0x7F,0x49,0x49,0x49,0x36], -- B
  [0x3E,0x41,0x41,0x41,0x22], -- C
  [0x7F,0x41,0x41,0x22,0x1C], -- D
  [0x7F,0x49,0x49,0x49,0x41], -- E
  [0x7F,0x09,0x09,0x09,0x01], -- F
  [0x3E,0x41,0x49,0x49,0x7A], -- G
  [0x7F,0x08,0x08,0x08,0x7F], -- H
  [0x00,0x41,0x7F,0x41,0x00], -- I
  [0x20,0x40,0x41,0x3F,0x01], -- J
  [0x7F,0x08,0x14,0x22,0x41], -- K
  [0x7F,0x40,0x40,0x40,0x40], -- L
  [0x7F,0x02,0x0C,0x02,0x7F], -- M
  [0x7F,0x04,0x08,0x10,0x7F], -- N
  [0x3E,0x41,0x41,0x41,0x3E], -- O
  [0x7F,0x09,0x09,0x09,0x06], -- P
  [0x3E,0x41,0x51,0x21,0x5E], -- Q
  [0x7F,0x09,0x19,0x29,0x46], -- R
  [0x46,0x49,0x49,0x49,0x31], -- S
  [0x01,0x01,0x7F,0x01,0x01], -- T
  [0x3F,0x40,0x40,0x40,0x3F], -- U
  [0x1F,0x20,0x40,0x20,0x1F], -- V
  [0x3F,0x40,0x38,0x40,0x3F], -- W
  [0x63,0x14,0x08,0x14,0x63], -- X
  [0x07,0x08,0x70,0x08,0x07], -- Y
  [0x61,0x51,0x49,0x45,0x43], -- Z
  [0x00,0x7F,0x41,0x41,0x00], -- left bracket
  [0x02,0x04,0x08,0x10,0x20], -- backslash
  [0x00,0x41,0x41,0x7F,0x00], -- right bracket
  [0x04,0x02,0x01,0x02,0x04], -- caret
  [0x40,0x40,0x40,0x40,0x40], -- underscore
  [0x00,0x01,0x02,0x04,0x00], -- backquote
  [0x20,0x54,0x54,0x54,0x78], -- a
  [0x7F,0x48,0x44,0x44,0x38], -- b
  [0x38,0x44,0x44,0x44,0x20], -- c
  [0x38,0x44,0x44,0x48,0x7F], -- d
  [0x38,0x54,0x54,0x54,0x18], -- e
  [0x08,0x7E,0x09,0x01,0x02], -- f
  [0x0C,0x52,0x52,0x52,0x3E], -- g
  [0x7F,0x08,0x04,0x04,0x78], -- h
  [0x00,0x44,0x7D,0x40,0x00], -- i
  [0x20,0x40,0x44,0x3D,0x00], -- j
  [0x7F,0x10,0x28,0x44,0x00], -- k
  [0x00,0x41,0x7F,0x40,0x00], -- l
  [0x7C,0x04,0x18,0x04,0x78], -- m
  [0x7C,0x08,0x04,0x04,0x78], -- n
  [0x38,0x44,0x44,0x44,0x38], -- o
  [0x7C,0x14,0x14,0x14,0x08], -- p
  [0x08,0x14,0x14,0x18,0x7C], -- q
  [0x7C,0x08,0x04,0x04,0x08], -- r
  [0x48,0x54,0x54,0x54,0x20], -- s
  [0x04,0x3F,0x44,0x40,0x20], -- t
  [0x3C,0x40,0x40,0x20,0x7C], -- u
  [0x1C,0x20,0x40,0x20,0x1C], -- v
  [0x3C,0x40,0x30,0x40,0x3C], -- w
  [0x44,0x28,0x10,0x28,0x44], -- x
  [0x0C,0x50,0x50,0x50,0x3C], -- y
  [0x44,0x64,0x54,0x4C,0x44], -- z
  [0x00,0x08,0x36,0x41,0x00], -- left brace
  [0x00,0x00,0x7F,0x00,0x00], -- vertical bar
  [0x00,0x41,0x36,0x08,0x00], -- right brace
  [0x08,0x08,0x2A,0x1C,0x08], -- right arrow
  [0x08,0x1C,0x2A,0x08,0x08]  -- left arrow
]

/-- `font5x7[r][i]`: byte `i` of glyph row `r`. -/
def fontByte (r i : Nat) : Nat := (font5x7.getD r []).getD i 0

/-- One iteration of the inner `for (j = 0; j < 8; j++)` loop body of
`ssd1306_draw_char`: draw pixel `(x+i, y+j)` with `color` when the low
bit of the running `line` byte is set, else `!color`, then shift `line`. -/
def charStep (x y : Int) (i : Nat) (color : Bool) (p : FB × Nat) (j : Nat) :
    FB × Nat :=
  (ssd1306_draw_pixel p.1 (x + i) (y + j)
      (if p.2 &&& 1 = 1 then color else !color),
   p.2 >>> 1)

/-- `ssd1306_draw_char(x, y, c, color)`: range check, then for each of the
5 glyph columns run the 8-row inner loop over the column byte. -/
def ssd1306_draw_char (fb : FB) (x y : Int) (c : Nat) (color : Bool) : FB :=
  if c < 32 ∨ 126 < c then fb
  else
    (List.range 5).foldl
      (fun fb1 i =>
        ((List.range 8).foldl (charStep x y i color) (fb1, fontByte (c - 32) i)).1)
      fb

/-- `ssd1306_draw_string(x, y, str, color)`: draw characters left to right,
advancing `x` by 6 per character, stopping at the null terminator (the
string is a byte list; a 0 byte terminates it early). -/
def ssd1306_draw_string (fb : FB) (x y : Int) (s : List Nat) (color : Bool) :
    FB :=
  match s with
  | [] => fb
  | c :: rest =>
      if c = 0 then fb
      else ssd1306_draw_string (ssd1306_draw_char fb x y c color) (x + 6) y
             rest color

/-- The command opcodes emitted by `ssd1306_init`, in emission order
(the second byte of each two-byte command write). -/
def initOpcodes : List Nat := ssd1306_init.map (fun m => m.bytes.getD 1 0)

/-- Modelled from the spec: the init opcode order asserted by the claim —
display off; addressing mode (with its operand); page and column start
addresses grouped together; COM scan direction; segment remap; contrast;
normal display; multiplex ratio; output-follows-RAM; display offset;
clock divide; pre-charge; COM pins; VCOMH; charge pump; display on. -/
def initOpcodesClaimed : List Nat :=
  [0xAE, 0x20, 0x00, 0xB0, 0x00, 0x10, 0xC8, 0xA1, 0x81, 0xFF, 0xA6, 0xA8,
   0x3F, 0xA4, 0xD3, 0x00, 0xD5, 0xF0, 0xD9, 0x22, 0xDA, 0x12, 0xDB, 0x20,
   0x8D, 0x14, 0xAF]

/-- The sequence of pixel writes the spec attributes to `ssd1306_draw_char`
for an in-range character: for each glyph column `i` (0..4) and row `j`
(0..7), paint pixel `(x+i, y+j)` with the foreground color when bit `j` of
the glyph byte for column `i` is set, else with the inverse color. -/
def charOpsSpec (x y : Int) (c : Nat) (color : Bool) :
    List (Int × Int × Bool) :=
  (List.range 5).flatMap (fun (i : Nat) =>
    (List.range 8).map (fun (j : Nat) =>
      (x + (i : Int), y + (j : Int),
       if (fontByte (c - 32) i).testBit j then color else !color)))

/-- Sequential composition of pixel writes through `ssd1306_draw_pixel`. -/
def applyOps (fb : FB) (ops : List (Int × Int × Bool)) : FB :=
  ops.foldl (fun fb1 op => ssd1306_draw_pixel fb1 op.1 op.2.1 op.2.2) fb

/-- A concrete all-zero framebuffer, used to instantiate theorems. -/
def fb0 : FB := fun _ => 0

/-- A concrete nonzero framebuffer, used to instantiate theorems. -/
def fb1 : FB := fun i => if i = 5 then 0xA7 else 0x13

end SSD1306

namespace SSD1306

/-- Bytes of `fb1` are genuine byte values. -/
lemma fb1_lt (i : Nat) : fb1 i < 256 := by
  unfold fb1
  by_cases h : i = 5 <;> simp [h]

/-- `(1 <<< k)` is the `k`-th power of two. -/
lemma one_shiftLeft (k : Nat) : 1 <<< k = 2 ^ k := by
  simp [Nat.shiftLeft_eq]

/-- Every low bit of the mask `0xFF` is set. -/
lemma testBit_255 : ∀ j < 8, Nat.testBit 255 j = true := by decide

/-- Applying a concatenation of pixel writes is sequential application. -/
lemma applyOps_append (fb : FB) (l1 l2 : List (Int × Int × Bool)) :
    applyOps fb (l1 ++ l2) = applyOps (applyOps fb l1) l2 :=
  List.foldl_append _ _ _ _

/-- The low bit of a right-shifted byte is the corresponding source bit. -/
lemma shiftRight_and_one (b n : Nat) :
    ((b >>> n) &&& 1 = 1) ↔ (b.testBit n = true) := by
  rw [Nat.and_one_is_mod, Nat.shiftRight_eq_div_pow, Nat.testBit_to_div_mod]
  exact decide_eq_true_iff.symm

/-- The inner 8-row loop of `ssd1306_draw_char`, which tests the low bit of
the running `line` byte and shifts, performs exactly the pixel writes
described by `Nat.testBit` on the original column byte. -/
lemma charFold (x y : Int) (i : Nat) (color : Bool) (n : Nat) :
    ∀ (fb : FB) (b : Nat),
    (List.range n).foldl (charStep x y i color) (fb, b)
      = (applyOps fb ((List.range n).map (fun (j : Nat) =>
          (x + (i : Int), y + (j : Int),
           if b.testBit j then color else !color))),
         b >>> n) := by
  induction n with
  | zero => intro fb b; simp [applyOps]
  | succ n ih =>
      intro fb b
      rw [List.range_succ n, List.foldl_append, ih, List.map_append,
        applyOps_append]
      simp only [List.foldl_cons, List.foldl_nil, charStep, List.map_cons,
        List.map_nil]
      refine Prod.ext ?_ ?_
      · show ssd1306_draw_pixel _ _ _ _ = applyOps _ _
        have hc : (if (b >>> n) &&& 1 = 1 then color else !color)
            = (if b.testBit n then color else !color) :=
          if_congr (shiftRight_and_one b n) rfl rfl
        simp only [applyOps, List.foldl_cons, List.foldl_nil, hc]
      · show b >>> n >>> 1 = b >>> (n + 1)
        rw [Nat.shiftRight_add]

/-- For an in-range character, `ssd1306_draw_char` is exactly the
sequential application of the 40 pixel writes of `charOpsSpec`. -/
lemma draw_char_eq_applyOps (fb : FB) (x y : Int) (c : Nat) (color : Bool)
    (h : ¬(c < 32 ∨ 126 < c)) :
    ssd1306_draw_char fb x y c color = applyOps fb (charOpsSpec x y c color) := by
  unfold ssd1306_draw_char charOpsSpec
  rw [if_neg h]
  have hm : ∀ (m : Nat) (fb1 : FB),
      (List.range m).foldl
        (fun fb2 i =>
          ((List.range 8).foldl (charStep x y i color)
            (fb2, fontByte (c - 32) i)).1)
        fb1
      = applyOps fb1 ((List.range m).flatMap (fun (i : Nat) =>
          (List.range 8).map (fun (j : Nat) =>
            (x + (i : Int), y + (j : Int),
             if (fontByte (c - 32) i).testBit j then color else !color)))) := by
    intro m
    induction m with
    | zero => intro fb1; simp [applyOps]
    | succ m ih =>
        intro fb1
        rw [List.range_succ m, List.foldl_append, List.flatMap_append, ih,
          applyOps_append]
        simp only [List.foldl_cons, List.foldl_nil, List.flatMap_cons,
          List.flatMap_nil, List.append_nil]
        rw [charFold]
  exact hm 5 fb

/-- Every byte of the font table fits in 7 bits. -/
lemma fontByte_lt (r i : Nat) : fontByte r i < 128 := by
  have hmem : ∀ l ∈ font5x7, ∀ b ∈ l, b < 128 := by decide
  unfold fontByte
  rcases Nat.lt_or_ge r font5x7.length with hr | hr
  · rcases Nat.lt_or_ge i (font5x7.getD r []).length with hi | hi
    · rw [List.getD_eq_getElem _ _ hi]
      refine hmem _ ?_ _ (List.getElem_mem _)
      rw [List.getD_eq_getElem _ _ hr]
      exact List.getElem_mem _
    · rw [List.getD_eq_default _ _ hi]
      norm_num
  · rw [List.getD_eq_default _ _ hr]
    norm_num

/-- Negating the foreground color negates every painted pixel value. -/
lemma ite_not_color (t color : Bool) :
    (if t then !color else !(!color)) = !(if t then color else !color) := by
  cases t <;> simp

/-- Variant of `ite_not_color` with the double negation reduced. -/
lemma ite_not_color2 (t color : Bool) :
    (if t then !color else color) = !(if t then color else !color) := by
  cases t <;> simp

/-- Peeling the first index off a fold over `List.range (n+1)`. -/
lemma foldl_range_succ {α : Type} (G : α → Nat → α) (b : α) (n : Nat) :
    (List.range (n + 1)).foldl G b
      = (List.range n).foldl (fun a k => G a (k + 1)) (G b 0) := by
  rw [List.range_succ_eq_map, List.foldl_cons, List.foldl_map]

/-- For a string without interior null bytes, `ssd1306_draw_string` draws
character `k` at horizontal position `x + 6*k`. -/
lemma draw_string_foldl (s : List Nat) :
    ∀ (fb : FB) (x y : Int) (color : Bool), (∀ c ∈ s, c ≠ 0) →
    ssd1306_draw_string fb x y s color
      = (List.range s.length).foldl
          (fun (acc : FB) (k : Nat) => ssd1306_draw_char acc
            (x + 6 * (k : Int)) y (s.getD k 0) color) fb := by
  induction s with
  | nil =>
      intro fb x y color _
      simp [ssd1306_draw_string]
  | cons c rest ih =>
      intro fb x y color hs
      have hc : c ≠ 0 := hs c (List.mem_cons_self c rest)
      rw [ssd1306_draw_string, if_neg hc,
        ih _ (x + 6) y color (fun c' hc' => hs c' (List.mem_cons_of_mem _ hc'))]
      rw [List.length_cons, foldl_range_succ]
      have hfun : (fun (a : FB) (k : Nat) =>
            ssd1306_draw_char a (x + 6 * ((k + 1 : Nat) : Int)) y
              ((c :: rest).getD (k + 1) 0) color)
          = (fun (a : FB) (k : Nat) =>
            ssd1306_draw_char a (x + 6 + 6 * (k : Int)) y (rest.getD k 0)
              color) := by
        funext a k
        have hx6 : x + 6 * ((k + 1 : Nat) : Int) = x + 6 + 6 * (k : Int) := by
          push_cast
          ring
        rw [hx6, List.getD_cons_succ]
      have hinit : ssd1306_draw_char fb (x + 6 * ((0 : Nat) : Int)) y
          ((c :: rest).getD 0 0) color = ssd1306_draw_char fb x y c color := by
        simp
      rw [hfun, hinit]

end SSD1306

/-- C5: for an in-range character, `ssd1306_draw_char` performs exactly the
40 pixel writes of the claimed schedule — for each glyph column `i` (0..4)
and row `j` (0..7), a `ssd1306_draw_pixel (x+i) (y+j) v` where `v` is the
color when bit `j` of the glyph byte for column `i` is set and the inverse
color otherwise — and flipping the color flag inverts every one of those 40
painted values. -/
theorem draw_char_in_range (fb : SSD1306.FB) (x y : Int) (c : Nat)
    (color : Bool) (h1 : 32 ≤ c) (h2 : c ≤ 126) :
    SSD1306.ssd1306_draw_char fb x y c color
      = SSD1306.applyOps fb (SSD1306.charOpsSpec x y c color) ∧
    (SSD1306.charOpsSpec x y c color).length = 40 ∧
    SSD1306.charOpsSpec x y c (!color)
      = (SSD1306.charOpsSpec x y c color).map
          (fun op => (op.1, op.2.1, !op.2.2)) := by
  have h : ¬(c < 32 ∨ 126 < c) := by omega
  refine ⟨SSD1306.draw_char_eq_applyOps fb x y c color h, rfl, ?_⟩
  simp [SSD1306.charOpsSpec, List.map_flatMap, List.map_map,
    Function.comp_def, SSD1306.ite_not_color, SSD1306.ite_not_color2]

/-- Witness for C5: drawing the glyph of 'A' (65) at the origin on the
all-zero framebuffer follows the claimed 40-write schedule, and the
`color = false` schedule is the pointwise inverse of the `color = true`
one. -/
theorem draw_char_in_range_witness :
    SSD1306.ssd1306_draw_char SSD1306.fb0 0 0 65 true
      = SSD1306.applyOps SSD1306.fb0 (SSD1306.charOpsSpec 0 0 65 true) ∧
    (SSD1306.charOpsSpec 0 0 65 true).length = 40 ∧
    SSD1306.charOpsSpec 0 0 65 false
      = (SSD1306.charOpsSpec 0 0 65 true).map
          (fun op => (op.1, op.2.1, !op.2.2)) := by
  have h := draw_char_in_range SSD1306.fb0 0 0 65 true (by decide) (by decide)
  exact ⟨h.1, h.2.1, by simpa using h.2.2⟩

/-- C7: for a null-free string, `ssd1306_draw_string` is the sequential
composition of `ssd1306_draw_char` calls with the cursor advancing exactly
6 pixels per character (character `k` is drawn at `x + 6*k`), with no
whole-character rejection or explicit right-edge clipping; a null byte
terminates rendering immediately. -/
theorem draw_string_spec (fb : SSD1306.FB) (x y : Int) (s : List Nat)
    (color : Bool) (hs : ∀ c ∈ s, c ≠ 0) :
    SSD1306.ssd1306_draw_string fb x y s color
      = (List.range s.length).foldl
          (fun (acc : SSD1306.FB) (k : Nat) => SSD1306.ssd1306_draw_char acc
            (x + 6 * (k : Int)) y (s.getD k 0) color) fb ∧
    (∀ rest : List Nat,
      SSD1306.ssd1306_draw_string fb x y (0 :: rest) color = fb) := by
  refine ⟨SSD1306.draw_string_foldl s fb x y color hs, fun rest => ?_⟩
  rw [SSD1306.ssd1306_draw_string, if_pos rfl]

/-- Witness for C7: drawing "AB" (bytes 65, 66) at the origin equals the
two-step fold drawing 'A' at x = 0 and 'B' at x = 6. -/
theorem draw_string_spec_witness :
    SSD1306.ssd1306_draw_string SSD1306.fb0 0 0 [65, 66] true
      = (List.range 2).foldl
          (fun (acc : SSD1306.FB) (k : Nat) => SSD1306.ssd1306_draw_char acc
            (0 + 6 * (k : Int)) 0 ([65, 66].getD k 0) true) SSD1306.fb0 ∧
    SSD1306.ssd1306_draw_string SSD1306.fb0 0 0 [0, 65] true = SSD1306.fb0 := by
  have h := draw_string_spec SSD1306.fb0 0 0 [65, 66] true (by decide)
  exact ⟨h.1, (draw_string_spec SSD1306.fb0 0 0 [] true (by decide)).2 [65]⟩

/-- C9 counterexample: the font table has 96 entries, not 97; character 126
indexes entry 94, which is the right-arrow glyph `[0x08,0x08,0x2A,0x1C,0x08]`
— so the arrow glyphs do not sit at indices 95 and 96, and the right arrow
is reachable through `ssd1306_draw_char`. -/
theorem font_table_claim_false :
    SSD1306.font5x7.length ≠ 97 ∧
    SSD1306.fontByte (126 - 32) 2 = 0x2A := by
  constructor <;> decide

/-- C9 (amended): for every character accepted by `ssd1306_draw_char`'s
range check, the table index `c - 32` lies in 0..94 and is strictly within
the bounds of the 96-entry font table, so every glyph lookup reads an
existing 5-byte row; only the table's last entry (the left-arrow glyph at
index 95) is unreachable — the right-arrow glyph at index 94 is reached by
character 126. -/
theorem font_index_in_bounds (c : Nat) (h : ¬(c < 32 ∨ 126 < c)) :
    c - 32 ≤ 94 ∧ c - 32 < SSD1306.font5x7.length ∧
    (SSD1306.font5x7.getD (c - 32) []).length = 5 ∧ c - 32 ≠ 95 := by
  have h1 : 32 ≤ c := by omega
  have h2 : c ≤ 126 := by omega
  have hlen : SSD1306.font5x7.length = 96 := by rfl
  have hrows : ∀ r < 96, (SSD1306.font5x7.getD r []).length = 5 := by decide
  refine ⟨by omega, by rw [hlen]; omega, hrows (c - 32) (by omega), by omega⟩

/-- Witness for C9: character 126 (the highest accepted) indexes row 94,
inside the 96-entry table, and that row has 5 bytes. -/
theorem font_index_in_bounds_witness :
    126 - 32 ≤ 94 ∧ 126 - 32 < SSD1306.font5x7.length ∧
    (SSD1306.font5x7.getD (126 - 32) []).length = 5 ∧ 126 - 32 ≠ 95 :=
  font_index_in_bounds 126 (by decide)

/-- C10: every byte of the font table has bit 7 clear, and consequently,
for every in-range character, origin and color, the pixel-write schedule
that `ssd1306_draw_char` executes paints each bottom-row cell pixel
(vertical offset `y + 7`) with the inverse of the foreground color: glyph
shapes occupy only the top 7 rows. -/
theorem font_bottom_row_background :
    SSD1306.font5x7.all (fun row => row.all (fun b => b < 128)) = true ∧
    (∀ (c : Nat) (x y : Int) (color : Bool) (fb : SSD1306.FB),
      ¬(c < 32 ∨ 126 < c) →
      SSD1306.ssd1306_draw_char fb x y c color
        = SSD1306.applyOps fb (SSD1306.charOpsSpec x y c color) ∧
      ∀ op ∈ SSD1306.charOpsSpec x y c color,
        op.2.1 = y + 7 → op.2.2 = !color) := by
  refine ⟨by decide, ?_⟩
  intro c x y color fb h
  refine ⟨SSD1306.draw_char_eq_applyOps fb x y c color h, ?_⟩
  intro op hop hrow
  simp only [SSD1306.charOpsSpec, List.mem_flatMap, List.mem_map,
    List.mem_range] at hop
  obtain ⟨i, hi5, j, hj8, rfl⟩ := hop
  have hj7 : j = 7 := by
    have : y + (j : Int) = y + 7 := hrow
    omega
  subst hj7
  have hbit : (SSD1306.fontByte (c - 32) i).testBit 7 = false :=
    Nat.testBit_lt_two_pow (SSD1306.fontByte_lt _ _)
  simp [hbit]

/-- Witness for C10: for 'A' at the origin with `color = true`, the
schedule entry for column 0, row 7 paints `false` (background). -/
theorem font_bottom_row_background_witness :
    SSD1306.ssd1306_draw_char SSD1306.fb0 0 0 65 true
      = SSD1306.applyOps SSD1306.fb0 (SSD1306.charOpsSpec 0 0 65 true) ∧
    ((0 : Int), (7 : Int), false) ∈ SSD1306.charOpsSpec 0 0 65 true := by
  have h := font_bottom_row_background.2 65 0 0 true SSD1306.fb0 (by decide)
  refine ⟨h.1, ?_⟩
  decide

/-- C4: out-of-range coordinates make `ssd1306_draw_pixel` a silent no-op:
whenever `x < 0` or `x ≥ 128` or `y < 0` or `y ≥ 64`, the framebuffer is
returned unchanged for either value of the color flag, with no error and no
access to any framebuffer byte. -/
theorem draw_pixel_out_of_range (fb : SSD1306.FB) (x y : Int) (color : Bool)
    (h : x < 0 ∨ 128 ≤ x ∨ y < 0 ∨ 64 ≤ y) :
    SSD1306.ssd1306_draw_pixel fb x y color = fb := by
  unfold SSD1306.ssd1306_draw_pixel
  rw [if_pos]
  simpa [SSD1306.WIDTH, SSD1306.HEIGHT] using h

/-- Witness for C4: `ssd1306_draw_pixel` at `x = -1` and at `y = 64` leaves
a concrete framebuffer unchanged. -/
theorem draw_pixel_out_of_range_witness :
    SSD1306.ssd1306_draw_pixel SSD1306.fb1 (-1) 0 true = SSD1306.fb1 ∧
    SSD1306.ssd1306_draw_pixel SSD1306.fb1 0 64 false = SSD1306.fb1 := by
  constructor
  · exact draw_pixel_out_of_range SSD1306.fb1 (-1) 0 true (by decide)
  · exact draw_pixel_out_of_range SSD1306.fb1 0 64 false (by decide)

/-- C8: `ssd1306_clear` zeroes every framebuffer byte, so every pixel of the
display reads back off; the operation is a pure framebuffer transformation
and emits no bus transaction (its result type carries no I2C messages). -/
theorem clear_spec :
    (∀ i, i < 1024 → SSD1306.ssd1306_clear i = 0) ∧
    (∀ x y, x < 128 → y < 64 → SSD1306.readPixel SSD1306.ssd1306_clear x y = false) := by
  constructor
  · intro i _
    rfl
  · intro x y _ _
    simp [SSD1306.readPixel, SSD1306.ssd1306_clear]

/-- C1: `ssd1306_update` iterates over the 8 pages in ascending order and,
for each page, emits the page-select command `0xB0 + page`, the low column
address command `0x00`, the high column address command `0x10`, and then one
data transaction whose payload is the `0x40` control byte followed by the
128 bytes `buffer[128*page .. 128*page+127]` — exactly 8 command groups
interleaved with exactly 8 data transactions. -/
theorem update_emits_pages (fb : SSD1306.FB) :
    SSD1306.ssd1306_update fb =
      (List.range 8).flatMap (fun page =>
        [SSD1306.write_command (0xB0 + page), SSD1306.write_command 0x00,
         SSD1306.write_command 0x10,
         SSD1306.write_data (SSD1306.pageSlice fb page)]) ∧
    (∀ page, (SSD1306.write_data (SSD1306.pageSlice fb page)).bytes
      = 0x40 :: SSD1306.pageSlice fb page) ∧
    (∀ page, (SSD1306.pageSlice fb page).length = 128) ∧
    (∀ page i (h : i < (SSD1306.pageSlice fb page).length),
      (SSD1306.pageSlice fb page).get ⟨i, h⟩ = fb (128 * page + i)) := by
  refine ⟨?_, fun page => rfl, ?_, ?_⟩
  · show SSD1306.updateLoop fb (SSD1306.HEIGHT / 8) = _
    norm_num [SSD1306.HEIGHT]
    simp [SSD1306.updateLoop, SSD1306.pageMsgs, List.range_succ]
  · intro page
    simp [SSD1306.pageSlice, SSD1306.WIDTH]
  · intro page i h
    simp [SSD1306.pageSlice, SSD1306.WIDTH]

/-- Witness for C1: on a concrete framebuffer, the update trace has 32
transactions, byte 3 of page 0's data payload is that framebuffer byte,
and the page-0 data transaction starts with the `0x40` control byte. -/
theorem update_emits_pages_witness :
    SSD1306.ssd1306_update SSD1306.fb1 =
      (List.range 8).flatMap (fun page =>
        [SSD1306.write_command (0xB0 + page), SSD1306.write_command 0x00,
         SSD1306.write_command 0x10,
         SSD1306.write_data (SSD1306.pageSlice SSD1306.fb1 page)]) ∧
    (SSD1306.pageSlice SSD1306.fb1 0).length = 128 ∧
    (SSD1306.pageSlice SSD1306.fb1 0).getD 5 0 = SSD1306.fb1 5 := by
  have hlen := (update_emits_pages SSD1306.fb1).2.2.1 0
  have h5 : 5 < (SSD1306.pageSlice SSD1306.fb1 0).length := by
    rw [hlen]; decide
  have h := (update_emits_pages SSD1306.fb1).2.2.2 0 5 h5
  refine ⟨(update_emits_pages SSD1306.fb1).1, hlen, ?_⟩
  rw [List.getD_eq_getElem _ _ h5]
  simpa using h

/-- C2 counterexample: the opcode order asserted by the claim (page and
column start addresses grouped before the COM scan direction, segment remap
before contrast, no start-line command) differs from the sequence the code
actually emits. -/
theorem init_claimed_order_false :
    SSD1306.initOpcodes ≠ SSD1306.initOpcodesClaimed := by decide

/-- C2 (amended): every call to `ssd1306_init` emits, after the settling
delay, the same fixed 28-command sequence — display off; addressing mode
(horizontal); page start address; COM scan direction remapped; low column
address; high column address; display start line; contrast `0x81 0xFF`;
segment remap; normal display; multiplex ratio `0xA8 0x3F`;
output-follows-RAM; display offset `0xD3 0x00`; clock divide `0xD5 0xF0`;
pre-charge `0xD9 0x22`; COM pins `0xDA 0x12`; VCOMH `0xDB 0x20`; charge
pump `0x8D 0x14`; display on — each transmitted as a two-byte write to
device `0x3C` of the control byte `0x00` followed by the opcode, and (the
trace being a framebuffer-independent constant) identical on every call. -/
theorem init_fixed_sequence :
    SSD1306.initOpcodes =
      [0xAE, 0x20, 0x00, 0xB0, 0xC8, 0x00, 0x10, 0x40, 0x81, 0xFF, 0xA1,
       0xA6, 0xA8, 0x3F, 0xA4, 0xD3, 0x00, 0xD5, 0xF0, 0xD9, 0x22, 0xDA,
       0x12, 0xDB, 0x20, 0x8D, 0x14, 0xAF] ∧
    SSD1306.ssd1306_init.all
      (fun m => m.addr == 0x3C && m.bytes.length == 2 &&
        m.bytes.getD 0 0 == 0x00) = true := by
  constructor <;> decide

/-- C3: for in-range coordinates, `ssd1306_draw_pixel` writes exactly bit
`y % 8` of byte `x + (y/8)*128`: the pixel reads back as the written color,
every other framebuffer byte is unchanged, and every other bit of the
addressed byte is unchanged. -/
theorem draw_pixel_in_range (fb : SSD1306.FB) (hfb : ∀ i, fb i < 256)
    (x y : Nat) (hx : x < 128) (hy : y < 64) (color : Bool) :
    SSD1306.readPixel (SSD1306.ssd1306_draw_pixel fb x y color) x y = color ∧
    (∀ i, i ≠ x + y / 8 * 128 →
      SSD1306.ssd1306_draw_pixel fb x y color i = fb i) ∧
    (∀ j, j ≠ y % 8 →
      Nat.testBit (SSD1306.ssd1306_draw_pixel fb x y color (x + y / 8 * 128)) j
        = Nat.testBit (fb (x + y / 8 * 128)) j) := by
  have hk8 : y % 8 < 8 := Nat.mod_lt _ (by decide)
  have h255 : (255 : Nat) = 2 ^ 8 - 1 := by norm_num
  have hguard : ¬((x : Int) < 0 ∨ (SSD1306.WIDTH : Int) ≤ (x : Int) ∨
      (y : Int) < 0 ∨ (SSD1306.HEIGHT : Int) ≤ (y : Int)) := by
    simp only [SSD1306.WIDTH, SSD1306.HEIGHT]
    omega
  have hdp : SSD1306.ssd1306_draw_pixel fb (x : Int) (y : Int) color =
      SSD1306.store fb (x + y / 8 * 128)
        (if color then fb (x + y / 8 * 128) ||| 2 ^ (y % 8)
         else fb (x + y / 8 * 128) &&& (255 ^^^ 2 ^ (y % 8))) := by
    unfold SSD1306.ssd1306_draw_pixel
    rw [if_neg hguard]
    cases color <;>
      simp [SSD1306.WIDTH, SSD1306.one_shiftLeft, Int.toNat_natCast]
  refine ⟨?_, ?_, ?_⟩
  · rw [hdp]
    cases color
    · simp only [SSD1306.readPixel, SSD1306.WIDTH, SSD1306.store,
        if_pos rfl]
      simp [Nat.testBit_and, Nat.testBit_xor, Nat.testBit_two_pow_self]
      intro _
      exact SSD1306.testBit_255 _ hk8
    · simp [SSD1306.readPixel, SSD1306.WIDTH, SSD1306.store,
        Nat.testBit_or, Nat.testBit_two_pow_self]
  · intro i hi
    rw [hdp]
    simp [SSD1306.store, hi]
  · intro j hj
    rw [hdp]
    cases color
    · rcases Nat.lt_or_ge j 8 with hj8 | hj8
      · simp [SSD1306.store, Nat.testBit_and, Nat.testBit_xor,
          Nat.testBit_two_pow, Ne.symm hj, SSD1306.testBit_255 j hj8]
      · have hlt : fb (x + y / 8 * 128) < 2 ^ j :=
          lt_of_lt_of_le (hfb _)
            (le_trans (by norm_num) (Nat.pow_le_pow_right (by norm_num) hj8))
        simp [SSD1306.store, Nat.testBit_and, Nat.testBit_lt_two_pow hlt]
    · simp [SSD1306.store, Nat.testBit_or, Nat.testBit_two_pow, Ne.symm hj]

/-- Witness for C3: on a concrete framebuffer, setting pixel (5, 11) makes
it read back on, leaves byte 7 unchanged, and leaves bit 0 of the addressed
byte unchanged; clearing the same pixel makes it read back off. -/
theorem draw_pixel_in_range_witness :
    SSD1306.readPixel (SSD1306.ssd1306_draw_pixel SSD1306.fb1 5 11 true) 5 11 = true ∧
    SSD1306.ssd1306_draw_pixel SSD1306.fb1 5 11 true 7 = SSD1306.fb1 7 ∧
    Nat.testBit (SSD1306.ssd1306_draw_pixel SSD1306.fb1 5 11 true 133) 0
      = Nat.testBit (SSD1306.fb1 133) 0 ∧
    SSD1306.readPixel (SSD1306.ssd1306_draw_pixel SSD1306.fb1 5 11 false) 5 11 = false := by
  refine ⟨(draw_pixel_in_range SSD1306.fb1 SSD1306.fb1_lt 5 11 (by decide)
      (by decide) true).1, ?_, ?_, (draw_pixel_in_range SSD1306.fb1
      SSD1306.fb1_lt 5 11 (by decide) (by decide) false).1⟩
  · exact (draw_pixel_in_range SSD1306.fb1 SSD1306.fb1_lt 5 11 (by decide)
      (by decide) true).2.1 7 (by decide)
  · exact (draw_pixel_in_range SSD1306.fb1 SSD1306.fb1_lt 5 11 (by decide)
      (by decide) true).2.2 0 (by decide)

/-- Witness for C8: byte 0 of the cleared framebuffer is zero and two
concrete pixels read back off. -/
theorem clear_spec_witness :
    SSD1306.ssd1306_clear 0 = 0 ∧
    SSD1306.readPixel SSD1306.ssd1306_clear 127 63 = false ∧
    SSD1306.readPixel SSD1306.ssd1306_clear 0 0 = false := by
  refine ⟨clear_spec.1 0 (by decide), clear_spec.2 127 63 (by decide) (by decide),
    clear_spec.2 0 0 (by decide) (by decide)⟩

/-- C6: `ssd1306_draw_char` on a character outside ASCII 32–126 leaves the
framebuffer entirely unchanged, for every origin and either color. -/
theorem draw_char_out_of_range (fb : SSD1306.FB) (x y : Int) (c : Nat)
    (color : Bool) (h : c < 32 ∨ 126 < c) :
    SSD1306.ssd1306_draw_char fb x y c color = fb := by
  unfold SSD1306.ssd1306_draw_char
  rw [if_pos h]

/-- Witness for C6: drawing byte 130 and byte 31 changes nothing on a
concrete framebuffer. -/
theorem draw_char_out_of_range_witness :
    SSD1306.ssd1306_draw_char SSD1306.fb1 3 4 130 true = SSD1306.fb1 ∧
    SSD1306.ssd1306_draw_char SSD1306.fb1 0 0 31 false = SSD1306.fb1 := by
  constructor
  · exact draw_char_out_of_range SSD1306.fb1 3 4 130 true (by decide)
  · exact draw_char_out_of_range SSD1306.fb1 0 0 31 false (by decide)
